import Mathlib

/-!
Button poller of `src/buttons.h`.

A shallow embedding of the `buttons` namespace: the three parallel per-button
arrays, the stored time of the last poll, `updateButtons`, `readButton` and
`readEvent`.

* `unsigned long` is 32 bits wide on the target, so values are natural numbers
  below `ULONG_MODULUS` and `+=` / `-` reduce modulo `ULONG_MODULUS`.
* The arrays of length `NUM_BUTTONS` are functions on `Fin NUM_BUTTONS`.
* `millis()` and `gpio_extender->digitalRead` are inputs of a poll:
  `updateButtons` receives the values of its two successive `millis()` calls
  and the reading of every pin.
* `readButton` / `readEvent` return their result together with the poller
  state after the call, so that "no mutation on read" is a statement.
* A run of the firmware is `runPolls (initial t0) polls`: the initialisers
  followed by any list of polls, each with its own clock values and readings.
-/

namespace buttons

/-! ## Constants -/

abbrev NUM_BUTTONS : Nat := 4

def BTN_0_PIN : Nat := 7
def BTN_1_PIN : Nat := 6
def BTN_2_PIN : Nat := 5
def BTN_3_PIN : Nat := 4

/-- The table `BTN_PINS[NUM_BUTTONS]`. -/
def BTN_PINS : Fin NUM_BUTTONS → Nat :=
  ![BTN_0_PIN, BTN_1_PIN, BTN_2_PIN, BTN_3_PIN]

/-- Long press threshold in milliseconds. -/
def LONG_PRESS_LIMIT : Nat := 1000

/-- Number of values of an `unsigned long` on the target (32 bits). -/
def ULONG_MODULUS : Nat := 4294967296

/-- Addition of two `unsigned long` values (`+=` in the source). -/
def ulongAdd (a b : Nat) : Nat := (a + b) % ULONG_MODULUS

/-- Subtraction of two `unsigned long` values (`-` in the source). -/
def ulongSub (a b : Nat) : Nat :=
  (a % ULONG_MODULUS + (ULONG_MODULUS - b % ULONG_MODULUS)) % ULONG_MODULUS

/-! ## Data model -/

inductive ButtonState where
  | UP
  | DOWN
  | LONG_DOWN
  | INVALID_STATE
  deriving DecidableEq, Repr

inductive ButtonEvent where
  | NONE
  | PRESSED
  | RELEASED
  | LONG_PRESSED
  | LONG_RELEASED
  | INVALID_EVENT
  deriving DecidableEq, Repr

open ButtonState ButtonEvent

/-- The mutable globals of the namespace. -/
structure Poller where
  current_states : Fin NUM_BUTTONS → ButtonState
  current_events : Fin NUM_BUTTONS → ButtonEvent
  button_press_duration : Fin NUM_BUTTONS → Nat
  last_update_time : Nat

/-- The globals as their initialisers leave them; `millis0` is the value of
`millis()` when `last_update_time` is initialised. -/
def initial (millis0 : Nat) : Poller where
  current_states := ![UP, UP, UP, UP]
  current_events := ![NONE, NONE, NONE, NONE]
  button_press_duration := ![0, 0, 0, 0]
  last_update_time := millis0

/-! ## `updateButtons` -/

/-- Body of the `for` loop of `updateButtons` for index `i`, statement by
statement. `digitalRead` gives the reading of each pin and
`duration_last_update` is the local of that name. -/
def loopBody (digitalRead : Nat → Nat) (duration_last_update : Nat)
    (i : Fin NUM_BUTTONS) (s : Poller) : Poller :=
  let pressed := digitalRead (BTN_PINS i)
  let s := { s with current_events := Function.update s.current_events i NONE }
  if pressed ≠ 0 then
    let s :=
      if s.current_states i = DOWN then
        { s with current_events := Function.update s.current_events i RELEASED }
      else if s.current_states i = LONG_DOWN then
        { s with current_events := Function.update s.current_events i LONG_RELEASED }
      else s
    let s := { s with current_states := Function.update s.current_states i UP }
    { s with button_press_duration := Function.update s.button_press_duration i 0 }
  else
    let accumulated := ulongAdd (s.button_press_duration i) duration_last_update
    let s := { s with button_press_duration := Function.update s.button_press_duration i accumulated }
    if s.button_press_duration i > LONG_PRESS_LIMIT then
      let s :=
        if s.current_states i = DOWN then
          { s with current_events := Function.update s.current_events i LONG_PRESSED }
        else s
      { s with current_states := Function.update s.current_states i LONG_DOWN }
    else
      let s :=
        if s.current_states i = UP then
          { s with current_events := Function.update s.current_events i PRESSED }
        else s
      { s with current_states := Function.update s.current_states i DOWN }

/-- The loop `for (int i = ...; i < NUM_BUTTONS; i++)` started at index `i`;
`fuel` bounds the number of iterations. -/
def forLoop (digitalRead : Nat → Nat) (duration_last_update : Nat) :
    Nat → Nat → Poller → Poller
  | 0, _, s => s
  | fuel + 1, i, s =>
    if h : i < NUM_BUTTONS then
      forLoop digitalRead duration_last_update fuel (i + 1)
        (loopBody digitalRead duration_last_update ⟨i, h⟩ s)
    else s

/-- The local `duration_last_update` of `updateButtons`: `millis1` is the value
of the first `millis()` call. -/
def duration_last_update (s : Poller) (millis1 : Nat) : Nat :=
  ulongSub millis1 s.last_update_time

/-- One poll. `millis1` and `millis2` are the values returned by the first and
the second call of `millis()`. -/
def updateButtons (s : Poller) (millis1 millis2 : Nat) (digitalRead : Nat → Nat) :
    Poller :=
  let elapsed := duration_last_update s millis1
  let s := { s with last_update_time := millis2 }
  forLoop digitalRead elapsed NUM_BUTTONS 0 s

/-! ## `readButton` and `readEvent` -/

/-- Returns the result and the globals after the call. `button_num` is a
`uint8_t`. -/
def readButton (s : Poller) (button_num : Nat) : ButtonState × Poller :=
  if h : button_num < NUM_BUTTONS then
    (s.current_states ⟨button_num, h⟩, s)
  else
    (INVALID_STATE, s)

/-- Returns the result and the globals after the call. `button_num` is a
`uint8_t`. -/
def readEvent (s : Poller) (button_num : Nat) : ButtonEvent × Poller :=
  if h : button_num < NUM_BUTTONS then
    (s.current_events ⟨button_num, h⟩, s)
  else
    (INVALID_EVENT, s)

/-- A call of one of the two read functions with its argument. -/
inductive ReadCall where
  | button (button_num : Nat)
  | event (button_num : Nat)

/-- Performs one read call: its result and the globals after it. -/
def performRead (s : Poller) : ReadCall → (ButtonState ⊕ ButtonEvent) × Poller
  | .button n => (Sum.inl (readButton s n).1, (readButton s n).2)
  | .event n => (Sum.inr (readEvent s n).1, (readEvent s n).2)

/-- Performs a sequence of read calls one after the other: the results in
order and the globals after the last call. -/
def performReads : List ReadCall → Poller → List (ButtonState ⊕ ButtonEvent) × Poller
  | [], s => ([], s)
  | c :: cs, s =>
    let r := performRead s c
    let rest := performReads cs r.2
    (r.1 :: rest.1, rest.2)

/-! ## Sequences of polls -/

/-- The inputs of one call of `updateButtons`: the values of its two `millis()`
calls and the reading of every pin. -/
structure Poll where
  millis1 : Nat
  millis2 : Nat
  digitalRead : Nat → Nat

/-- One call of `updateButtons` on the inputs `p`. -/
def poll (s : Poller) (p : Poll) : Poller :=
  updateButtons s p.millis1 p.millis2 p.digitalRead

/-- Successive calls of `updateButtons`, first poll first. -/
def runPolls : Poller → List Poll → Poller
  | s, [] => s
  | s, p :: ps => runPolls (poll s p) ps

/-- The value of `duration_last_update` in each call of a sequence. -/
def elapsedTimes : Poller → List Poll → List Nat
  | _, [] => []
  | s, p :: ps => duration_last_update s p.millis1 :: elapsedTimes (poll s p) ps

/-- The event of button `i` after each call of a sequence. -/
def eventTrace (i : Fin NUM_BUTTONS) : Poller → List Poll → List ButtonEvent
  | _, [] => []
  | s, p :: ps => (poll s p).current_events i :: eventTrace i (poll s p) ps

/-- The state of button `i` after each call of a sequence. -/
def stateTrace (i : Fin NUM_BUTTONS) : Poller → List Poll → List ButtonState
  | _, [] => []
  | s, p :: ps => (poll s p).current_states i :: stateTrace i (poll s p) ps

/-- The call `updateButtons` with the iterations of its loop taken in the
order `order` instead of 0, 1, 2, 3. -/
def updateButtonsInOrder (order : List (Fin NUM_BUTTONS)) (s : Poller)
    (millis1 millis2 : Nat) (digitalRead : Nat → Nat) : Poller :=
  let elapsed := duration_last_update s millis1
  let s := { s with last_update_time := millis2 }
  order.foldl (fun t i => loopBody digitalRead elapsed i t) s

/-! ## Shared lemmas on one poll -/

theorem updateButtons_unroll (s : Poller) (millis1 millis2 : Nat) (digitalRead : Nat → Nat) :
    updateButtons s millis1 millis2 digitalRead =
      loopBody digitalRead (duration_last_update s millis1) 3
        (loopBody digitalRead (duration_last_update s millis1) 2
          (loopBody digitalRead (duration_last_update s millis1) 1
            (loopBody digitalRead (duration_last_update s millis1) 0
              { s with last_update_time := millis2 }))) := by
  rfl

/-- An iteration for button `j` leaves the cells of every other button alone. -/
theorem loopBody_other (rd : Nat → Nat) (e : Nat) (i j : Fin NUM_BUTTONS) (hij : i ≠ j)
    (s : Poller) :
    (loopBody rd e j s).current_states i = s.current_states i ∧
    (loopBody rd e j s).current_events i = s.current_events i ∧
    (loopBody rd e j s).button_press_duration i = s.button_press_duration i := by
  unfold loopBody
  simp only []
  split_ifs <;> simp [Function.update_noteq hij]

/-- An iteration does not write `last_update_time`. -/
theorem loopBody_last_update_time (rd : Nat → Nat) (e : Nat) (j : Fin NUM_BUTTONS)
    (s : Poller) : (loopBody rd e j s).last_update_time = s.last_update_time := by
  unfold loopBody
  simp only []
  split_ifs <;> rfl

/-- The iteration for button `i` on a reading different from zero. -/
theorem loopBody_inactive (rd : Nat → Nat) (e : Nat) (i : Fin NUM_BUTTONS) (s : Poller)
    (h : rd (BTN_PINS i) ≠ 0) :
    (loopBody rd e i s).current_states i = UP ∧
    (loopBody rd e i s).button_press_duration i = 0 ∧
    (loopBody rd e i s).current_events i =
      (if s.current_states i = DOWN then RELEASED
       else if s.current_states i = LONG_DOWN then LONG_RELEASED else NONE) := by
  unfold loopBody
  simp only [h, ne_eq, not_false_eq_true, if_true]
  split_ifs <;> simp

/-- The iteration for button `i` on a reading equal to zero. -/
theorem loopBody_active (rd : Nat → Nat) (e : Nat) (i : Fin NUM_BUTTONS) (s : Poller)
    (h : rd (BTN_PINS i) = 0) :
    (loopBody rd e i s).button_press_duration i = ulongAdd (s.button_press_duration i) e ∧
    (loopBody rd e i s).current_states i =
      (if ulongAdd (s.button_press_duration i) e > LONG_PRESS_LIMIT then LONG_DOWN else DOWN) ∧
    (loopBody rd e i s).current_events i =
      (if ulongAdd (s.button_press_duration i) e > LONG_PRESS_LIMIT then
        (if s.current_states i = DOWN then LONG_PRESSED else NONE)
       else (if s.current_states i = UP then PRESSED else NONE)) := by
  unfold loopBody
  simp only [h, ne_eq, not_true_eq_false, if_false, Function.update_same]
  split_ifs <;> simp

theorem loopBody_other_states (rd : Nat → Nat) (e : Nat) (i j : Fin NUM_BUTTONS)
    (hij : i ≠ j) (s : Poller) :
    (loopBody rd e j s).current_states i = s.current_states i :=
  (loopBody_other rd e i j hij s).1

theorem loopBody_other_events (rd : Nat → Nat) (e : Nat) (i j : Fin NUM_BUTTONS)
    (hij : i ≠ j) (s : Poller) :
    (loopBody rd e j s).current_events i = s.current_events i :=
  (loopBody_other rd e i j hij s).2.1

theorem loopBody_other_duration (rd : Nat → Nat) (e : Nat) (i j : Fin NUM_BUTTONS)
    (hij : i ≠ j) (s : Poller) :
    (loopBody rd e j s).button_press_duration i = s.button_press_duration i :=
  (loopBody_other rd e i j hij s).2.2

theorem fin_four_cases : ∀ i : Fin NUM_BUTTONS, i = 0 ∨ i = 1 ∨ i = 2 ∨ i = 3 := by
  decide

/-- After a poll the cells of button `i` are those its own iteration computes
from the cells of button `i` before the poll. -/
theorem updateButtons_cells (s : Poller) (m1 m2 : Nat) (rd : Nat → Nat)
    (i : Fin NUM_BUTTONS) :
    (rd (BTN_PINS i) ≠ 0 →
      (updateButtons s m1 m2 rd).current_states i = UP ∧
      (updateButtons s m1 m2 rd).button_press_duration i = 0 ∧
      (updateButtons s m1 m2 rd).current_events i =
        (if s.current_states i = DOWN then RELEASED
         else if s.current_states i = LONG_DOWN then LONG_RELEASED else NONE)) ∧
    (rd (BTN_PINS i) = 0 →
      (updateButtons s m1 m2 rd).button_press_duration i =
        ulongAdd (s.button_press_duration i) (duration_last_update s m1) ∧
      (updateButtons s m1 m2 rd).current_states i =
        (if ulongAdd (s.button_press_duration i) (duration_last_update s m1)
            > LONG_PRESS_LIMIT then LONG_DOWN else DOWN) ∧
      (updateButtons s m1 m2 rd).current_events i =
        (if ulongAdd (s.button_press_duration i) (duration_last_update s m1)
            > LONG_PRESS_LIMIT then
          (if s.current_states i = DOWN then LONG_PRESSED else NONE)
         else (if s.current_states i = UP then PRESSED else NONE))) := by
  rw [updateButtons_unroll]
  refine ⟨fun h => ?_, fun h => ?_⟩
  · rcases fin_four_cases i with rfl | rfl | rfl | rfl
    · have k := loopBody_inactive rd (duration_last_update s m1) 0
        { s with last_update_time := m2 } h
      simpa [loopBody_other_states, loopBody_other_events, loopBody_other_duration] using k
    · have k := loopBody_inactive rd (duration_last_update s m1) 1
        (loopBody rd (duration_last_update s m1) 0 { s with last_update_time := m2 }) h
      simpa [loopBody_other_states, loopBody_other_events, loopBody_other_duration] using k
    · have k := loopBody_inactive rd (duration_last_update s m1) 2
        (loopBody rd (duration_last_update s m1) 1
          (loopBody rd (duration_last_update s m1) 0 { s with last_update_time := m2 })) h
      simpa [loopBody_other_states, loopBody_other_events, loopBody_other_duration] using k
    · have k := loopBody_inactive rd (duration_last_update s m1) 3
        (loopBody rd (duration_last_update s m1) 2
          (loopBody rd (duration_last_update s m1) 1
            (loopBody rd (duration_last_update s m1) 0
              { s with last_update_time := m2 }))) h
      simpa [loopBody_other_states, loopBody_other_events, loopBody_other_duration] using k
  · rcases fin_four_cases i with rfl | rfl | rfl | rfl
    · have k := loopBody_active rd (duration_last_update s m1) 0
        { s with last_update_time := m2 } h
      simpa [loopBody_other_states, loopBody_other_events, loopBody_other_duration] using k
    · have k := loopBody_active rd (duration_last_update s m1) 1
        (loopBody rd (duration_last_update s m1) 0 { s with last_update_time := m2 }) h
      simpa [loopBody_other_states, loopBody_other_events, loopBody_other_duration] using k
    · have k := loopBody_active rd (duration_last_update s m1) 2
        (loopBody rd (duration_last_update s m1) 1
          (loopBody rd (duration_last_update s m1) 0 { s with last_update_time := m2 })) h
      simpa [loopBody_other_states, loopBody_other_events, loopBody_other_duration] using k
    · have k := loopBody_active rd (duration_last_update s m1) 3
        (loopBody rd (duration_last_update s m1) 2
          (loopBody rd (duration_last_update s m1) 1
            (loopBody rd (duration_last_update s m1) 0
              { s with last_update_time := m2 }))) h
      simpa [loopBody_other_states, loopBody_other_events, loopBody_other_duration] using k

/-- A poll stores the value of the second `millis()` call. -/
theorem updateButtons_last_update_time (s : Poller) (m1 m2 : Nat) (rd : Nat → Nat) :
    (updateButtons s m1 m2 rd).last_update_time = m2 := by
  rw [updateButtons_unroll]
  simp [loopBody_last_update_time]

/-! ## The decision table of one poll -/

/-- C1, counterexample: the accumulated duration is not the plain sum. From the
initial state a poll 2147483648 ms later with button 0 active leaves it in
`LONG_DOWN` with `press_duration = 2147483648`; at the next poll (the clock has
wrapped to 0, so elapsed is 2147483648 again) the pin is still active and the
plain sum 4294967296 exceeds 1000, yet the stored duration is 0 and the state
is `DOWN`, not `LONG_DOWN`. -/
theorem decision_table_plain_sum_counterexample :
    (updateButtons (initial 0) 2147483648 2147483648 (fun _ => 0)).current_states 0
      = LONG_DOWN ∧
    (updateButtons (initial 0) 2147483648 2147483648 (fun _ => 0)).button_press_duration 0
      = 2147483648 ∧
    duration_last_update (updateButtons (initial 0) 2147483648 2147483648 (fun _ => 0)) 0
      = 2147483648 ∧
    (fun _ => 0 : Nat → Nat) (BTN_PINS 0) = 0 ∧
    2147483648 + 2147483648 > LONG_PRESS_LIMIT ∧
    (updateButtons (updateButtons (initial 0) 2147483648 2147483648 (fun _ => 0))
      0 0 (fun _ => 0)).button_press_duration 0 = 0 ∧
    (updateButtons (updateButtons (initial 0) 2147483648 2147483648 (fun _ => 0))
      0 0 (fun _ => 0)).button_press_duration 0 ≠ 2147483648 + 2147483648 ∧
    (updateButtons (updateButtons (initial 0) 2147483648 2147483648 (fun _ => 0))
      0 0 (fun _ => 0)).current_states 0 = DOWN ∧
    (updateButtons (updateButtons (initial 0) 2147483648 2147483648 (fun _ => 0))
      0 0 (fun _ => 0)).current_states 0 ≠ LONG_DOWN := by
  decide

/-- C1, amended: for every button `i`, every poller state, every pin reading and
every clock value, one call of `updateButtons` leaves button `i` as the decision
table prescribes, the accumulated duration being the sum of the previous
duration and the elapsed time reduced modulo 2^32. On a reading different from
zero: state `UP`, duration 0, event `RELEASED` after `DOWN`, `LONG_RELEASED`
after `LONG_DOWN`, `NONE` otherwise. On a zero reading the duration becomes
`(previous + elapsed) % 2^32`; if that value exceeds 1000 the state is
`LONG_DOWN` and the event `LONG_PRESSED` exactly after `DOWN` (else `NONE`),
otherwise the state is `DOWN` and the event `PRESSED` exactly after `UP`
(else `NONE`). -/
theorem updateButtons_decision_table (s : Poller) (m1 m2 : Nat) (rd : Nat → Nat)
    (i : Fin NUM_BUTTONS) :
    (rd (BTN_PINS i) ≠ 0 →
      (updateButtons s m1 m2 rd).current_states i = UP ∧
      (updateButtons s m1 m2 rd).button_press_duration i = 0 ∧
      (updateButtons s m1 m2 rd).current_events i =
        (if s.current_states i = DOWN then RELEASED
         else if s.current_states i = LONG_DOWN then LONG_RELEASED else NONE)) ∧
    (rd (BTN_PINS i) = 0 →
      (updateButtons s m1 m2 rd).button_press_duration i =
        (s.button_press_duration i + duration_last_update s m1) % ULONG_MODULUS ∧
      ((s.button_press_duration i + duration_last_update s m1) % ULONG_MODULUS
          > LONG_PRESS_LIMIT →
        (updateButtons s m1 m2 rd).current_states i = LONG_DOWN ∧
        (updateButtons s m1 m2 rd).current_events i =
          (if s.current_states i = DOWN then LONG_PRESSED else NONE)) ∧
      ((s.button_press_duration i + duration_last_update s m1) % ULONG_MODULUS
          ≤ LONG_PRESS_LIMIT →
        (updateButtons s m1 m2 rd).current_states i = DOWN ∧
        (updateButtons s m1 m2 rd).current_events i =
          (if s.current_states i = UP then PRESSED else NONE))) := by
  obtain ⟨hin, hact⟩ := updateButtons_cells s m1 m2 rd i
  refine ⟨hin, fun h => ?_⟩
  obtain ⟨hd, hs, he⟩ := hact h
  unfold ulongAdd at hd hs he
  refine ⟨hd, fun hgt => ?_, fun hle => ?_⟩
  · rw [hs, he]
    simp [hgt]
  · have hn : ¬ (s.button_press_duration i + duration_last_update s m1) % ULONG_MODULUS
        > LONG_PRESS_LIMIT := Nat.not_lt.mpr hle
    rw [hs, he]
    simp [hn]

/-- C1, witness: the first poll 500 ms after initialisation with button 0
active. -/
theorem updateButtons_decision_table_witness :
    (fun _ => 0 : Nat → Nat) (BTN_PINS 0) = 0 ∧
    ((initial 0).button_press_duration 0 + duration_last_update (initial 0) 500)
      % ULONG_MODULUS ≤ LONG_PRESS_LIMIT ∧
    (updateButtons (initial 0) 500 500 (fun _ => 0)).current_states 0 = DOWN ∧
    (updateButtons (initial 0) 500 500 (fun _ => 0)).current_events 0 =
      (if (initial 0).current_states 0 = UP then PRESSED else NONE) :=
  ⟨rfl, by decide,
    ((updateButtons_decision_table (initial 0) 500 500 (fun _ => 0) 0).2 rfl).2.2
      (by decide)⟩

/-! ## Index check of the read functions -/

/-- C2: for every index `i >= NUM_BUTTONS` that a `uint8_t` can hold and every
poller state, `readButton` returns `INVALID_STATE` and `readEvent` returns
`INVALID_EVENT`; for every `i < NUM_BUTTONS` they return the stored state and
event of button `i`. -/
theorem read_index_check (s : Poller) :
    (∀ i : Nat, NUM_BUTTONS ≤ i → i < 256 →
      (readButton s i).1 = INVALID_STATE ∧ (readEvent s i).1 = INVALID_EVENT) ∧
    (∀ i : Fin NUM_BUTTONS,
      (readButton s i.val).1 = s.current_states i ∧
      (readEvent s i.val).1 = s.current_events i) := by
  refine ⟨fun i hi _ => ?_, fun i => ?_⟩
  · have hn : ¬ i < NUM_BUTTONS := Nat.not_lt.mpr hi
    simp [readButton, readEvent, hn]
  · simp [readButton, readEvent, i.isLt]

/-- C2, witness: index 200 on the poller after one poll. -/
theorem read_index_check_witness :
    NUM_BUTTONS ≤ 200 ∧ 200 < 256 ∧
    (readButton (updateButtons (initial 0) 500 500 (fun _ => 0)) 200).1 = INVALID_STATE ∧
    (readEvent (updateButtons (initial 0) 500 500 (fun _ => 0)) 200).1 = INVALID_EVENT :=
  ⟨by decide, by decide,
    (read_index_check (updateButtons (initial 0) 500 500 (fun _ => 0))).1 200
      (by decide) (by decide)⟩

/-! ## Presses -/

/-- C3, counterexample: an active read from `UP` does not always give `DOWN`
and `PRESSED`. In the initial state button 0 is `UP` with duration 0; a first
poll 1001 ms later with the pin active leaves it `LONG_DOWN` with event
`NONE`. -/
theorem press_from_up_counterexample :
    (initial 0).current_states 0 = UP ∧
    (initial 0).button_press_duration 0 = 0 ∧
    duration_last_update (initial 0) 1001 = 1001 ∧
    (fun _ => 0 : Nat → Nat) (BTN_PINS 0) = 0 ∧
    (updateButtons (initial 0) 1001 1001 (fun _ => 0)).current_states 0 = LONG_DOWN ∧
    (updateButtons (initial 0) 1001 1001 (fun _ => 0)).current_events 0 = NONE ∧
    ¬ ((updateButtons (initial 0) 1001 1001 (fun _ => 0)).current_states 0 = DOWN ∧
       (updateButtons (initial 0) 1001 1001 (fun _ => 0)).current_events 0 = PRESSED) := by
  decide

/-- The elapsed time is an `unsigned long` value. -/
theorem duration_last_update_lt (s : Poller) (m1 : Nat) :
    duration_last_update s m1 < ULONG_MODULUS := by
  unfold duration_last_update ulongSub
  exact Nat.mod_lt _ (by decide)

/-- C3, amended: for every button whose state is `UP` with duration 0 and every
elapsed time of at most 1000 ms, a call of `updateButtons` in which that
button reads active leaves it with state `DOWN` and event `PRESSED`. -/
theorem press_from_up (s : Poller) (m1 m2 : Nat) (rd : Nat → Nat) (i : Fin NUM_BUTTONS)
    (hup : s.current_states i = UP) (hzero : s.button_press_duration i = 0)
    (hact : rd (BTN_PINS i) = 0)
    (hshort : duration_last_update s m1 ≤ LONG_PRESS_LIMIT) :
    (updateButtons s m1 m2 rd).current_states i = DOWN ∧
    (updateButtons s m1 m2 rd).current_events i = PRESSED := by
  obtain ⟨_, hs, he⟩ := (updateButtons_cells s m1 m2 rd i).2 hact
  have hlt := duration_last_update_lt s m1
  have hsum : ulongAdd (s.button_press_duration i) (duration_last_update s m1)
      = duration_last_update s m1 := by
    unfold ulongAdd
    rw [hzero, Nat.zero_add, Nat.mod_eq_of_lt hlt]
  have hn : ¬ duration_last_update s m1 > LONG_PRESS_LIMIT := Nat.not_lt.mpr hshort
  rw [hs, he, hsum]
  simp [hn, hup]

/-- C3, witness: the first poll exactly 1000 ms after initialisation with
button 2 active. -/
theorem press_from_up_witness :
    (initial 0).current_states 2 = UP ∧
    (initial 0).button_press_duration 2 = 0 ∧
    (fun _ => 0 : Nat → Nat) (BTN_PINS 2) = 0 ∧
    duration_last_update (initial 0) 1000 ≤ LONG_PRESS_LIMIT ∧
    (updateButtons (initial 0) 1000 7 (fun _ => 0)).current_states 2 = DOWN ∧
    (updateButtons (initial 0) 1000 7 (fun _ => 0)).current_events 2 = PRESSED :=
  ⟨rfl, rfl, rfl, by decide,
    press_from_up (initial 0) 1000 7 (fun _ => 0) 2 rfl rfl rfl (by decide)⟩

/-! ## The long press boundary -/

/-- C4, counterexample: the comparison is made on the sum reduced modulo 2^32,
not on `d + e`. After a first poll at 1000 ms button 0 is `DOWN` with
`d = 1000`; at the next poll the clock reads 999 after wrap-around, so
`e = 4294967295`, the pin is active and `d + e > 1000`, yet the button stays
`DOWN` with event `NONE` and duration 999. -/
theorem long_press_boundary_counterexample :
    (updateButtons (initial 0) 1000 1000 (fun _ => 0)).current_states 0 = DOWN ∧
    (updateButtons (initial 0) 1000 1000 (fun _ => 0)).button_press_duration 0 = 1000 ∧
    duration_last_update (updateButtons (initial 0) 1000 1000 (fun _ => 0)) 999
      = 4294967295 ∧
    (fun _ => 0 : Nat → Nat) (BTN_PINS 0) = 0 ∧
    1000 + 4294967295 > LONG_PRESS_LIMIT ∧
    (updateButtons (updateButtons (initial 0) 1000 1000 (fun _ => 0))
      999 999 (fun _ => 0)).current_states 0 = DOWN ∧
    (updateButtons (updateButtons (initial 0) 1000 1000 (fun _ => 0))
      999 999 (fun _ => 0)).current_events 0 = NONE ∧
    (updateButtons (updateButtons (initial 0) 1000 1000 (fun _ => 0))
      999 999 (fun _ => 0)).button_press_duration 0 = 999 ∧
    ¬ ((updateButtons (updateButtons (initial 0) 1000 1000 (fun _ => 0))
        999 999 (fun _ => 0)).current_states 0 = LONG_DOWN ∧
       (updateButtons (updateButtons (initial 0) 1000 1000 (fun _ => 0))
        999 999 (fun _ => 0)).current_events 0 = LONG_PRESSED) := by
  decide

/-- C4, amended: for every button in state `DOWN` with accumulated duration
`d <= 1000` and every elapsed `e`, an active read keeps state `DOWN` with event
`NONE` when `(d + e) % 2^32 <= 1000` (in particular when it is exactly 1000)
and yields `LONG_DOWN` with `LONG_PRESSED` when `(d + e) % 2^32 > 1000`; when
`d + e < 2^32` the reduced sum is `d + e` itself. -/
theorem long_press_boundary (s : Poller) (m1 m2 : Nat) (rd : Nat → Nat)
    (i : Fin NUM_BUTTONS)
    (hdown : s.current_states i = DOWN)
    (_hd : s.button_press_duration i ≤ LONG_PRESS_LIMIT)
    (hact : rd (BTN_PINS i) = 0) :
    ((s.button_press_duration i + duration_last_update s m1) % ULONG_MODULUS
        ≤ LONG_PRESS_LIMIT →
      (updateButtons s m1 m2 rd).current_states i = DOWN ∧
      (updateButtons s m1 m2 rd).current_events i = NONE) ∧
    ((s.button_press_duration i + duration_last_update s m1) % ULONG_MODULUS
        = LONG_PRESS_LIMIT →
      (updateButtons s m1 m2 rd).current_states i = DOWN ∧
      (updateButtons s m1 m2 rd).current_events i = NONE) ∧
    ((s.button_press_duration i + duration_last_update s m1) % ULONG_MODULUS
        > LONG_PRESS_LIMIT →
      (updateButtons s m1 m2 rd).current_states i = LONG_DOWN ∧
      (updateButtons s m1 m2 rd).current_events i = LONG_PRESSED) ∧
    (s.button_press_duration i + duration_last_update s m1 < ULONG_MODULUS →
      (s.button_press_duration i + duration_last_update s m1) % ULONG_MODULUS
        = s.button_press_duration i + duration_last_update s m1) := by
  obtain ⟨_, hs, he⟩ := (updateButtons_cells s m1 m2 rd i).2 hact
  unfold ulongAdd at hs he
  have hle : ∀ k : Nat, k ≤ LONG_PRESS_LIMIT → ¬ k > LONG_PRESS_LIMIT :=
    fun k hk => Nat.not_lt.mpr hk
  refine ⟨fun h => ?_, fun h => ?_, fun h => ?_, fun h => Nat.mod_eq_of_lt h⟩
  · rw [hs, he]
    simp [hle _ h, hdown]
  · rw [hs, he]
    simp [hle _ (Nat.le_of_eq h), hdown]
  · rw [hs, he]
    simp [h, hdown]

/-- C4, witness: button 0 is `DOWN` with 500 ms accumulated; the next poll
brings the sum to exactly 1000 and the one after it would bring it to 1001. -/
theorem long_press_boundary_witness :
    ((updateButtons (updateButtons (initial 0) 500 500 (fun _ => 0))
        1000 1000 (fun _ => 0)).current_states 0 = DOWN ∧
     (updateButtons (updateButtons (initial 0) 500 500 (fun _ => 0))
        1000 1000 (fun _ => 0)).current_events 0 = NONE) ∧
    ((updateButtons (updateButtons (initial 0) 500 500 (fun _ => 0))
        1001 1001 (fun _ => 0)).current_states 0 = LONG_DOWN ∧
     (updateButtons (updateButtons (initial 0) 500 500 (fun _ => 0))
        1001 1001 (fun _ => 0)).current_events 0 = LONG_PRESSED) :=
  ⟨(long_press_boundary (updateButtons (initial 0) 500 500 (fun _ => 0)) 1000 1000
      (fun _ => 0) 0 (by decide) (by decide) rfl).2.1 (by decide),
   (long_press_boundary (updateButtons (initial 0) 500 500 (fun _ => 0)) 1001 1001
      (fun _ => 0) 0 (by decide) (by decide) rfl).2.2.1 (by decide)⟩

/-! ## Releases -/

/-- C5: for every button and every elapsed time, an inactive read sets state
`UP` and duration 0, and the event is `RELEASED` when the previous state was
`DOWN`, `LONG_RELEASED` when it was `LONG_DOWN` and `NONE` when it was already
`UP`, whatever the previous duration. -/
theorem release_on_inactive_read (s : Poller) (m1 m2 : Nat) (rd : Nat → Nat)
    (i : Fin NUM_BUTTONS) (hin : rd (BTN_PINS i) ≠ 0) :
    (updateButtons s m1 m2 rd).current_states i = UP ∧
    (updateButtons s m1 m2 rd).button_press_duration i = 0 ∧
    (s.current_states i = DOWN →
      (updateButtons s m1 m2 rd).current_events i = RELEASED) ∧
    (s.current_states i = LONG_DOWN →
      (updateButtons s m1 m2 rd).current_events i = LONG_RELEASED) ∧
    (s.current_states i = UP →
      (updateButtons s m1 m2 rd).current_events i = NONE) := by
  obtain ⟨hs, hd, he⟩ := (updateButtons_cells s m1 m2 rd i).1 hin
  refine ⟨hs, hd, fun h => ?_, fun h => ?_, fun h => ?_⟩ <;> rw [he, h] <;> simp

/-- C5, witness: button 1 is released 300 ms after a poll that found it
pressed. -/
theorem release_on_inactive_read_witness :
    (fun _ => 1 : Nat → Nat) (BTN_PINS 1) ≠ 0 ∧
    (updateButtons (initial 0) 200 200 (fun _ => 0)).current_states 1 = DOWN ∧
    (updateButtons (updateButtons (initial 0) 200 200 (fun _ => 0))
      500 500 (fun _ => 1)).current_states 1 = UP ∧
    (updateButtons (updateButtons (initial 0) 200 200 (fun _ => 0))
      500 500 (fun _ => 1)).button_press_duration 1 = 0 ∧
    (updateButtons (updateButtons (initial 0) 200 200 (fun _ => 0))
      500 500 (fun _ => 1)).current_events 1 = RELEASED :=
  ⟨by decide, by decide,
    (release_on_inactive_read (updateButtons (initial 0) 200 200 (fun _ => 0))
      500 500 (fun _ => 1) 1 (by decide)).1,
    (release_on_inactive_read (updateButtons (initial 0) 200 200 (fun _ => 0))
      500 500 (fun _ => 1) 1 (by decide)).2.1,
    (release_on_inactive_read (updateButtons (initial 0) 200 200 (fun _ => 0))
      500 500 (fun _ => 1) 1 (by decide)).2.2.1 (by decide)⟩

/-! ## No repeated long press event -/

/-- C6: for every button whose state is `LONG_DOWN`, every previous duration
and every elapsed time, an active read yields event `NONE` on that poll. -/
theorem no_event_while_long_down (s : Poller) (m1 m2 : Nat) (rd : Nat → Nat)
    (i : Fin NUM_BUTTONS) (hlong : s.current_states i = LONG_DOWN)
    (hact : rd (BTN_PINS i) = 0) :
    (updateButtons s m1 m2 rd).current_events i = NONE := by
  obtain ⟨_, _, he⟩ := (updateButtons_cells s m1 m2 rd i).2 hact
  rw [he, hlong]
  simp

/-- C6, witness: button 3 is `LONG_DOWN` after 1500 ms and read active again
500 ms later. -/
theorem no_event_while_long_down_witness :
    (updateButtons (initial 0) 1500 1500 (fun _ => 0)).current_states 3 = LONG_DOWN ∧
    (fun _ => 0 : Nat → Nat) (BTN_PINS 3) = 0 ∧
    (updateButtons (updateButtons (initial 0) 1500 1500 (fun _ => 0))
      2000 2000 (fun _ => 0)).current_events 3 = NONE :=
  ⟨by decide, rfl,
    no_event_while_long_down (updateButtons (initial 0) 1500 1500 (fun _ => 0))
      2000 2000 (fun _ => 0) 3 (by decide) rfl⟩

/-! ## Events and transitions -/

/-- C7: for every button and every call of `updateButtons`, with `s` the state
before and `s'` the state after, the event is `PRESSED` iff
`(s, s') = (UP, DOWN)`, `LONG_PRESSED` iff `(s, s') = (DOWN, LONG_DOWN)`,
`RELEASED` iff `(s, s') = (DOWN, UP)`, `LONG_RELEASED` iff
`(s, s') = (LONG_DOWN, UP)`, and `NONE` for every other pair. -/
theorem event_matches_transition (s : Poller) (m1 m2 : Nat) (rd : Nat → Nat)
    (i : Fin NUM_BUTTONS) :
    ((updateButtons s m1 m2 rd).current_events i = PRESSED ↔
      (s.current_states i = UP ∧ (updateButtons s m1 m2 rd).current_states i = DOWN)) ∧
    ((updateButtons s m1 m2 rd).current_events i = LONG_PRESSED ↔
      (s.current_states i = DOWN ∧
        (updateButtons s m1 m2 rd).current_states i = LONG_DOWN)) ∧
    ((updateButtons s m1 m2 rd).current_events i = RELEASED ↔
      (s.current_states i = DOWN ∧ (updateButtons s m1 m2 rd).current_states i = UP)) ∧
    ((updateButtons s m1 m2 rd).current_events i = LONG_RELEASED ↔
      (s.current_states i = LONG_DOWN ∧
        (updateButtons s m1 m2 rd).current_states i = UP)) ∧
    (¬ (s.current_states i = UP ∧ (updateButtons s m1 m2 rd).current_states i = DOWN) →
     ¬ (s.current_states i = DOWN ∧
        (updateButtons s m1 m2 rd).current_states i = LONG_DOWN) →
     ¬ (s.current_states i = DOWN ∧ (updateButtons s m1 m2 rd).current_states i = UP) →
     ¬ (s.current_states i = LONG_DOWN ∧
        (updateButtons s m1 m2 rd).current_states i = UP) →
     (updateButtons s m1 m2 rd).current_events i = NONE) := by
  by_cases h : rd (BTN_PINS i) = 0
  · obtain ⟨_, hs, he⟩ := (updateButtons_cells s m1 m2 rd i).2 h
    rw [hs, he]
    by_cases hg : ulongAdd (s.button_press_duration i) (duration_last_update s m1)
        > LONG_PRESS_LIMIT <;> cases s.current_states i <;> simp [hg]
  · obtain ⟨hs, _, he⟩ := (updateButtons_cells s m1 m2 rd i).1 h
    rw [hs, he]
    cases s.current_states i <;> simp

/-- C7, witness: a poll that takes button 0 from `UP` to `LONG_DOWN` is none of
the four pairs with an event, so its event is `NONE`. -/
theorem event_matches_transition_witness :
    (initial 0).current_states 0 = UP ∧
    (updateButtons (initial 0) 1500 1500 (fun _ => 0)).current_states 0 = LONG_DOWN ∧
    (updateButtons (initial 0) 1500 1500 (fun _ => 0)).current_events 0 = NONE :=
  ⟨rfl, by decide,
    (event_matches_transition (initial 0) 1500 1500 (fun _ => 0) 0).2.2.2.2
      (by decide) (by decide) (by decide) (by decide)⟩

/-! ## The accumulated duration -/

/-- C8, counterexample: the duration can decrease on an active read. After a
first poll at 4294967295 ms with button 0 active its duration is 4294967295;
one millisecond later (the clock has wrapped to 0) the pin is still active and
the duration is 0. -/
theorem duration_monotone_counterexample :
    (updateButtons (initial 0) 4294967295 4294967295 (fun _ => 0)).button_press_duration 0
      = 4294967295 ∧
    duration_last_update (updateButtons (initial 0) 4294967295 4294967295 (fun _ => 0)) 0
      = 1 ∧
    (fun _ => 0 : Nat → Nat) (BTN_PINS 0) = 0 ∧
    (updateButtons (updateButtons (initial 0) 4294967295 4294967295 (fun _ => 0))
      0 0 (fun _ => 0)).button_press_duration 0 = 0 ∧
    ¬ ((updateButtons (updateButtons (initial 0) 4294967295 4294967295 (fun _ => 0))
        0 0 (fun _ => 0)).button_press_duration 0 ≥
       (updateButtons (initial 0) 4294967295 4294967295
        (fun _ => 0)).button_press_duration 0) := by
  decide

/-- C8, amended: for every button, every stored duration and every elapsed
time, after `updateButtons` the new duration is `(old + elapsed) % 2^32`
whenever the pin read active, hence `>=` the old one whenever
`old + elapsed < 2^32`, and it is exactly 0 whenever the pin read inactive. -/
theorem duration_accumulates_or_resets (s : Poller) (m1 m2 : Nat) (rd : Nat → Nat)
    (i : Fin NUM_BUTTONS) :
    (rd (BTN_PINS i) = 0 →
      (updateButtons s m1 m2 rd).button_press_duration i =
        (s.button_press_duration i + duration_last_update s m1) % ULONG_MODULUS ∧
      (s.button_press_duration i + duration_last_update s m1 < ULONG_MODULUS →
        (updateButtons s m1 m2 rd).button_press_duration i ≥ s.button_press_duration i)) ∧
    (rd (BTN_PINS i) ≠ 0 →
      (updateButtons s m1 m2 rd).button_press_duration i = 0) := by
  refine ⟨fun h => ?_, fun h => ((updateButtons_cells s m1 m2 rd i).1 h).2.1⟩
  obtain ⟨hd, _, _⟩ := (updateButtons_cells s m1 m2 rd i).2 h
  unfold ulongAdd at hd
  refine ⟨hd, fun hlt => ?_⟩
  rw [hd, Nat.mod_eq_of_lt hlt]
  exact Nat.le_add_right _ _

/-- C8, witness: button 0 held over two polls 400 ms and 700 ms after
initialisation, then released. -/
theorem duration_accumulates_or_resets_witness :
    (updateButtons (updateButtons (initial 0) 400 400 (fun _ => 0))
      700 700 (fun _ => 0)).button_press_duration 0 ≥
      (updateButtons (initial 0) 400 400 (fun _ => 0)).button_press_duration 0 ∧
    (updateButtons (updateButtons (initial 0) 400 400 (fun _ => 0))
      900 900 (fun _ => 1)).button_press_duration 0 = 0 :=
  ⟨((duration_accumulates_or_resets (updateButtons (initial 0) 400 400 (fun _ => 0))
      700 700 (fun _ => 0) 0).1 rfl).2 (by decide),
   (duration_accumulates_or_resets (updateButtons (initial 0) 400 400 (fun _ => 0))
      900 900 (fun _ => 1) 0).2 (by decide)⟩

/-! ## The initial state -/

/-- C9: before any `updateButtons` call every one of the 4 buttons has state
`UP`, event `NONE` and duration 0, so `readButton` returns `UP` and `readEvent`
returns `NONE` for every index below 4. -/
theorem initial_state (millis0 : Nat) (i : Fin NUM_BUTTONS) :
    NUM_BUTTONS = 4 ∧
    (initial millis0).current_states i = UP ∧
    (initial millis0).current_events i = NONE ∧
    (initial millis0).button_press_duration i = 0 ∧
    (readButton (initial millis0) i.val).1 = UP ∧
    (readEvent (initial millis0) i.val).1 = NONE := by
  have hcells : (initial millis0).current_states i = UP ∧
      (initial millis0).current_events i = NONE ∧
      (initial millis0).button_press_duration i = 0 := by
    rcases fin_four_cases i with rfl | rfl | rfl | rfl <;> exact ⟨rfl, rfl, rfl⟩
  refine ⟨rfl, hcells.1, hcells.2.1, hcells.2.2, ?_, ?_⟩
  · simp [readButton, i.isLt, hcells.1]
  · simp [readEvent, i.isLt, hcells.2.1]

/-! ## Reads do not write -/

/-- Any sequence of read calls returns, call by call, what the same call returns
on the state before the sequence, and leaves the state as it was. -/
theorem performReads_eq (calls : List ReadCall) (s : Poller) :
    performReads calls s = (calls.map (fun c => (performRead s c).1), s) := by
  induction calls with
  | nil => rfl
  | cons c cs ih =>
    have hc : (performRead s c).2 = s := by
      cases c <;> simp only [performRead, readButton, readEvent] <;> split_ifs <;> rfl
    simp only [performReads, hc, ih, List.map_cons]

/-- C10: for every poller state and every index, valid or not, a call of
`readButton` or of `readEvent` leaves the states, events, durations and the
last update time unchanged; hence any sequence of such calls between two polls
leaves the poller unchanged and each call in it returns what it returns on the
state before the sequence, and `n` repetitions of one call return `n` times the
same result. -/
theorem reads_are_pure (s : Poller) (button_num : Nat) :
    (readButton s button_num).2 = s ∧
    (readEvent s button_num).2 = s ∧
    (∀ calls : List ReadCall,
      (performReads calls s).2 = s ∧
      (performReads calls s).1 = calls.map (fun c => (performRead s c).1)) ∧
    (∀ n : Nat,
      (performReads (List.replicate n (ReadCall.button button_num)) s).1 =
        List.replicate n (Sum.inl (readButton s button_num).1) ∧
      (performReads (List.replicate n (ReadCall.event button_num)) s).1 =
        List.replicate n (Sum.inr (readEvent s button_num).1)) := by
  refine ⟨?_, ?_, fun calls => ?_, fun n => ?_⟩
  · unfold readButton
    split_ifs <;> rfl
  · unfold readEvent
    split_ifs <;> rfl
  · rw [performReads_eq]
    exact ⟨rfl, rfl⟩
  · rw [performReads_eq, performReads_eq]
    simp [performRead]

/-! ## Shared lemmas on the order of the iterations -/

theorem poller_ext (a b : Poller)
    (h1 : ∀ k, a.current_states k = b.current_states k)
    (h2 : ∀ k, a.current_events k = b.current_events k)
    (h3 : ∀ k, a.button_press_duration k = b.button_press_duration k)
    (h4 : a.last_update_time = b.last_update_time) : a = b := by
  cases a
  cases b
  simp only [Poller.mk.injEq]
  exact ⟨funext h1, funext h2, funext h3, h4⟩

/-- The iteration for button `i` reads no other cell than the state and the
duration of button `i`. -/
theorem loopBody_congr (rd : Nat → Nat) (e : Nat) (i : Fin NUM_BUTTONS) (s t : Poller)
    (hs : s.current_states i = t.current_states i)
    (hd : s.button_press_duration i = t.button_press_duration i) :
    (loopBody rd e i s).current_states i = (loopBody rd e i t).current_states i ∧
    (loopBody rd e i s).current_events i = (loopBody rd e i t).current_events i ∧
    (loopBody rd e i s).button_press_duration i =
      (loopBody rd e i t).button_press_duration i := by
  by_cases h : rd (BTN_PINS i) = 0
  · obtain ⟨a1, a2, a3⟩ := loopBody_active rd e i s h
    obtain ⟨b1, b2, b3⟩ := loopBody_active rd e i t h
    rw [a1, a2, a3, b1, b2, b3, hs, hd]
    exact ⟨rfl, rfl, rfl⟩
  · obtain ⟨a1, a2, a3⟩ := loopBody_inactive rd e i s h
    obtain ⟨b1, b2, b3⟩ := loopBody_inactive rd e i t h
    rw [a1, a2, a3, b1, b2, b3, hs]
    exact ⟨rfl, rfl, rfl⟩

/-- The iterations for two different buttons commute. -/
theorem loopBody_comm (rd : Nat → Nat) (e : Nat) (i j : Fin NUM_BUTTONS) (hij : i ≠ j)
    (s : Poller) :
    loopBody rd e i (loopBody rd e j s) = loopBody rd e j (loopBody rd e i s) := by
  have hji : j ≠ i := fun h => hij h.symm
  have ci := loopBody_congr rd e i (loopBody rd e j s) s
    (loopBody_other_states rd e i j hij s) (loopBody_other_duration rd e i j hij s)
  have cj := loopBody_congr rd e j (loopBody rd e i s) s
    (loopBody_other_states rd e j i hji s) (loopBody_other_duration rd e j i hji s)
  have key : ∀ k : Fin NUM_BUTTONS,
      (loopBody rd e i (loopBody rd e j s)).current_states k =
        (loopBody rd e j (loopBody rd e i s)).current_states k ∧
      (loopBody rd e i (loopBody rd e j s)).current_events k =
        (loopBody rd e j (loopBody rd e i s)).current_events k ∧
      (loopBody rd e i (loopBody rd e j s)).button_press_duration k =
        (loopBody rd e j (loopBody rd e i s)).button_press_duration k := by
    intro k
    by_cases hki : k = i
    · subst hki
      obtain ⟨o1, o2, o3⟩ := loopBody_other rd e k j hij (loopBody rd e k s)
      rw [o1, o2, o3]
      exact ci
    · by_cases hkj : k = j
      · subst hkj
        obtain ⟨o1, o2, o3⟩ := loopBody_other rd e k i hji (loopBody rd e k s)
        rw [o1, o2, o3]
        exact ⟨cj.1.symm, cj.2.1.symm, cj.2.2.symm⟩
      · obtain ⟨o1, o2, o3⟩ := loopBody_other rd e k i hki (loopBody rd e j s)
        obtain ⟨q1, q2, q3⟩ := loopBody_other rd e k j hkj (loopBody rd e i s)
        obtain ⟨r1, r2, r3⟩ := loopBody_other rd e k j hkj s
        obtain ⟨u1, u2, u3⟩ := loopBody_other rd e k i hki s
        rw [o1, o2, o3, q1, q2, q3, r1, r2, r3, u1, u2, u3]
        exact ⟨rfl, rfl, rfl⟩
  apply poller_ext
  · exact fun k => (key k).1
  · exact fun k => (key k).2.1
  · exact fun k => (key k).2.2
  · simp only [loopBody_last_update_time]

/-! ## Shared lemmas on sequences of polls -/

/-- The cells of button `i` after `poll`, as in `updateButtons_cells`. -/
theorem poll_inactive (s : Poller) (p : Poll) (i : Fin NUM_BUTTONS)
    (h : p.digitalRead (BTN_PINS i) ≠ 0) :
    (poll s p).current_states i = UP ∧
    (poll s p).button_press_duration i = 0 ∧
    (poll s p).current_events i =
      (if s.current_states i = DOWN then RELEASED
       else if s.current_states i = LONG_DOWN then LONG_RELEASED else NONE) :=
  (updateButtons_cells s p.millis1 p.millis2 p.digitalRead i).1 h

/-- An active read when the stored duration is `d`, the elapsed time `e` and
`d + e` does not wrap. -/
theorem poll_active_nowrap (s : Poller) (p : Poll) (i : Fin NUM_BUTTONS)
    (h : p.digitalRead (BTN_PINS i) = 0) (d e : Nat)
    (hd : s.button_press_duration i = d) (he : duration_last_update s p.millis1 = e)
    (hlt : d + e < ULONG_MODULUS) :
    (poll s p).button_press_duration i = d + e ∧
    (poll s p).current_states i = (if d + e > LONG_PRESS_LIMIT then LONG_DOWN else DOWN) ∧
    (poll s p).current_events i =
      (if d + e > LONG_PRESS_LIMIT then
        (if s.current_states i = DOWN then LONG_PRESSED else NONE)
       else (if s.current_states i = UP then PRESSED else NONE)) := by
  have k := (updateButtons_cells s p.millis1 p.millis2 p.digitalRead i).2 h
  have hsum : ulongAdd (s.button_press_duration i) (duration_last_update s p.millis1)
      = d + e := by
    unfold ulongAdd
    rw [hd, he, Nat.mod_eq_of_lt hlt]
  rw [hsum] at k
  exact k

/-- The elapsed time of a poll is measured from the value stored by the poll
before it. -/
theorem duration_last_update_poll (s : Poller) (p : Poll) (m : Nat) :
    duration_last_update (poll s p) m = ulongSub m p.millis2 := by
  unfold duration_last_update poll
  rw [updateButtons_last_update_time]

theorem runPolls_append (s : Poller) (ps qs : List Poll) :
    runPolls s (ps ++ qs) = runPolls (runPolls s ps) qs := by
  induction ps generalizing s with
  | nil => rfl
  | cons p ps ih => exact ih (poll s p)

theorem runPolls_concat (s : Poller) (ps : List Poll) (p : Poll) :
    runPolls s (ps ++ [p]) = poll (runPolls s ps) p := by
  rw [runPolls_append]
  rfl

/-- Whatever the state before, after one poll the cells of button `i` are
consistent with each other. -/
theorem poll_consistent (s : Poller) (p : Poll) (i : Fin NUM_BUTTONS) :
    (poll s p).current_states i ≠ INVALID_STATE ∧
    (poll s p).current_events i ≠ INVALID_EVENT ∧
    ((poll s p).current_states i = UP → (poll s p).button_press_duration i = 0) ∧
    ((poll s p).current_states i = DOWN →
      (poll s p).button_press_duration i ≤ LONG_PRESS_LIMIT) ∧
    ((poll s p).current_states i = LONG_DOWN ↔
      (poll s p).button_press_duration i > LONG_PRESS_LIMIT) := by
  by_cases h : p.digitalRead (BTN_PINS i) = 0
  · obtain ⟨hd, hs, he⟩ := (updateButtons_cells s p.millis1 p.millis2 p.digitalRead i).2 h
    unfold poll
    rw [hd, hs, he]
    by_cases hg : ulongAdd (s.button_press_duration i) (duration_last_update s p.millis1)
        > LONG_PRESS_LIMIT
    · cases s.current_states i <;> simp [hg]
    · cases s.current_states i <;> simp [hg] <;> exact Nat.not_lt.mp hg
  · obtain ⟨hs, hd, he⟩ := poll_inactive s p i h
    rw [hs, hd, he]
    cases s.current_states i <;> simp [LONG_PRESS_LIMIT]

/-- The cells of every button are consistent in every state reached from the
initial state. -/
theorem reachable_consistent (t0 : Nat) (polls : List Poll) (i : Fin NUM_BUTTONS) :
    (runPolls (initial t0) polls).current_states i ≠ INVALID_STATE ∧
    (runPolls (initial t0) polls).current_events i ≠ INVALID_EVENT ∧
    ((runPolls (initial t0) polls).current_states i = UP →
      (runPolls (initial t0) polls).button_press_duration i = 0) ∧
    ((runPolls (initial t0) polls).current_states i = DOWN →
      (runPolls (initial t0) polls).button_press_duration i ≤ LONG_PRESS_LIMIT) ∧
    ((runPolls (initial t0) polls).current_states i = LONG_DOWN ↔
      (runPolls (initial t0) polls).button_press_duration i > LONG_PRESS_LIMIT) := by
  induction polls using List.reverseRecOn with
  | nil =>
    rcases fin_four_cases i with rfl | rfl | rfl | rfl <;>
      simp [runPolls, initial, LONG_PRESS_LIMIT]
  | append_singleton ps p _ =>
    rw [runPolls_concat]
    exact poll_consistent _ p i

theorem elapsedTimes_append (s : Poller) (ps qs : List Poll) :
    elapsedTimes s (ps ++ qs) = elapsedTimes s ps ++ elapsedTimes (runPolls s ps) qs := by
  induction ps generalizing s with
  | nil => rfl
  | cons p ps ih =>
    simp [elapsedTimes, runPolls, ih]

theorem eventTrace_append (i : Fin NUM_BUTTONS) (s : Poller) (ps qs : List Poll) :
    eventTrace i s (ps ++ qs) = eventTrace i s ps ++ eventTrace i (runPolls s ps) qs := by
  induction ps generalizing s with
  | nil => rfl
  | cons p ps ih =>
    simp [eventTrace, runPolls, ih]

/-- The sum of the elapsed times of `ps ++ [p]`. -/
theorem elapsedTimes_concat_sum (s : Poller) (ps : List Poll) (p : Poll) :
    (elapsedTimes s (ps ++ [p])).sum =
      (elapsedTimes s ps).sum + duration_last_update (runPolls s ps) p.millis1 := by
  rw [elapsedTimes_append]
  simp [elapsedTimes]

/-- A hold: button `i` is `UP` with duration 0 and reads active in every poll
of `ps`, and the elapsed times do not add up to 2^32. Then the stored duration
is the sum of the elapsed times and, after at least one poll, the state is
`LONG_DOWN` when that sum exceeds the limit and `DOWN` otherwise. -/
theorem hold_cells (s : Poller) (i : Fin NUM_BUTTONS)
    (hz : s.button_press_duration i = 0) (ps : List Poll)
    (hact : ∀ p ∈ ps, p.digitalRead (BTN_PINS i) = 0)
    (hsum : (elapsedTimes s ps).sum < ULONG_MODULUS) :
    (runPolls s ps).button_press_duration i = (elapsedTimes s ps).sum ∧
    (ps ≠ [] → (runPolls s ps).current_states i =
      (if (elapsedTimes s ps).sum > LONG_PRESS_LIMIT then LONG_DOWN else DOWN)) := by
  induction ps using List.reverseRecOn with
  | nil => exact ⟨by simpa [runPolls, elapsedTimes] using hz, fun h => absurd rfl h⟩
  | append_singleton ps p ih =>
    rw [elapsedTimes_concat_sum] at hsum ⊢
    have hps : ∀ q ∈ ps, q.digitalRead (BTN_PINS i) = 0 :=
      fun q hq => hact q (List.mem_append_left _ hq)
    have hp : p.digitalRead (BTN_PINS i) = 0 := hact p (by simp)
    obtain ⟨hd, _⟩ := ih hps (Nat.lt_of_le_of_lt (Nat.le_add_right _ _) hsum)
    obtain ⟨d1, s1, _⟩ := poll_active_nowrap (runPolls s ps) p i hp _ _ hd rfl hsum
    rw [runPolls_concat]
    exact ⟨d1, fun _ => s1⟩

/-- In a hold the poll after the prefix `ps` emits `LONG_PRESSED` exactly when
it is not the first poll of the hold, the elapsed times of `ps` add up to at
most the limit and those of `ps ++ [p]` to more than the limit. -/
theorem hold_last_event (s : Poller) (i : Fin NUM_BUTTONS)
    (hup : s.current_states i = UP) (hz : s.button_press_duration i = 0)
    (ps : List Poll) (p : Poll)
    (hact : ∀ q ∈ ps ++ [p], q.digitalRead (BTN_PINS i) = 0)
    (hsum : (elapsedTimes s (ps ++ [p])).sum < ULONG_MODULUS) :
    (poll (runPolls s ps) p).current_events i = LONG_PRESSED ↔
      (ps ≠ [] ∧ (elapsedTimes s ps).sum ≤ LONG_PRESS_LIMIT ∧
        (elapsedTimes s (ps ++ [p])).sum > LONG_PRESS_LIMIT) := by
  rw [elapsedTimes_concat_sum] at hsum ⊢
  have hps : ∀ q ∈ ps, q.digitalRead (BTN_PINS i) = 0 :=
    fun q hq => hact q (List.mem_append_left _ hq)
  have hp : p.digitalRead (BTN_PINS i) = 0 := hact p (by simp)
  obtain ⟨hd, hst⟩ := hold_cells s i hz ps hps
    (Nat.lt_of_le_of_lt (Nat.le_add_right _ _) hsum)
  obtain ⟨_, _, v1⟩ := poll_active_nowrap (runPolls s ps) p i hp _ _ hd rfl hsum
  rw [v1]
  by_cases hnil : ps = []
  · subst hnil
    have h0 : (runPolls s []).current_states i = UP := hup
    rw [h0]
    by_cases hA : (elapsedTimes s []).sum + duration_last_update (runPolls s []) p.millis1
        > LONG_PRESS_LIMIT <;> simp [hA]
  · rw [hst hnil]
    by_cases hg : (elapsedTimes s ps).sum > LONG_PRESS_LIMIT
    · have hn : ¬ (elapsedTimes s ps).sum ≤ LONG_PRESS_LIMIT := Nat.not_le.mpr hg
      simp [hg, hn]
    · have hle : (elapsedTimes s ps).sum ≤ LONG_PRESS_LIMIT := Nat.not_lt.mp hg
      simp only [hg, if_false, hle, true_and, ne_eq, hnil, not_false_eq_true, if_true]
      split_ifs with h1 <;> simp [h1]

theorem elapsedTimes_headD_le_sum (s : Poller) (ps : List Poll) :
    (elapsedTimes s ps).headD 0 ≤ (elapsedTimes s ps).sum := by
  cases ps with
  | nil => simp [elapsedTimes]
  | cons q qs => simp [elapsedTimes]

theorem elapsedTimes_headD_concat (s : Poller) (ps : List Poll) (p : Poll) (h : ps ≠ []) :
    (elapsedTimes s (ps ++ [p])).headD 0 = (elapsedTimes s ps).headD 0 := by
  cases ps with
  | nil => exact absurd rfl h
  | cons q qs => simp [elapsedTimes]

/-- In a hold `LONG_PRESSED` is emitted once when the elapsed time of the first
poll is at most the limit and the elapsed times add up to more than the limit,
and never otherwise. -/
theorem hold_count (s : Poller) (i : Fin NUM_BUTTONS)
    (hup : s.current_states i = UP) (hz : s.button_press_duration i = 0)
    (ps : List Poll)
    (hact : ∀ q ∈ ps, q.digitalRead (BTN_PINS i) = 0)
    (hsum : (elapsedTimes s ps).sum < ULONG_MODULUS) :
    (eventTrace i s ps).count LONG_PRESSED =
      (if (elapsedTimes s ps).headD 0 ≤ LONG_PRESS_LIMIT ∧
          (elapsedTimes s ps).sum > LONG_PRESS_LIMIT then 1 else 0) := by
  induction ps using List.reverseRecOn with
  | nil => simp [eventTrace, elapsedTimes]
  | append_singleton ps p ih =>
    have hev := hold_last_event s i hup hz ps p hact hsum
    have hps : ∀ q ∈ ps, q.digitalRead (BTN_PINS i) = 0 :=
      fun q hq => hact q (List.mem_append_left _ hq)
    rw [elapsedTimes_concat_sum] at hsum hev
    have ih1 := ih hps (Nat.lt_of_le_of_lt (Nat.le_add_right _ _) hsum)
    have hcount : (eventTrace i s (ps ++ [p])).count LONG_PRESSED =
        (eventTrace i s ps).count LONG_PRESSED +
          (if (poll (runPolls s ps) p).current_events i = LONG_PRESSED then 1 else 0) := by
      rw [eventTrace_append]
      simp [eventTrace, List.count_singleton]
    rw [hcount, ih1, elapsedTimes_concat_sum]
    by_cases hnil : ps = []
    · subst hnil
      have hno : ¬ (poll (runPolls s []) p).current_events i = LONG_PRESSED :=
        fun h => (hev.mp h).1 rfl
      simp only [hno, if_false]
      simp only [elapsedTimes, runPolls, List.nil_append, List.headD_cons, List.sum_nil,
        List.sum_cons, List.headD_nil, Nat.zero_add, Nat.add_zero]
      split_ifs <;> omega
    · rw [elapsedTimes_headD_concat s ps p hnil]
      have hle := elapsedTimes_headD_le_sum s ps
      simp only [hev, ne_eq, hnil, not_false_eq_true, true_and]
      split_ifs <;> omega

/-- Two successive unsigned differences add up to the difference of the ends,
modulo 2^32. -/
theorem ulongSub_telescope (a b c r : Nat) (h : r % ULONG_MODULUS = ulongSub c b) :
    (ulongSub b a + r) % ULONG_MODULUS = ulongSub c a := by
  unfold ulongSub ULONG_MODULUS at *
  omega

/-- When both `millis()` calls of every poll return the same value, the elapsed
times add up, modulo 2^32, to the unsigned difference between the last stored
time and the first. -/
theorem elapsedTimes_sum_mod (s : Poller) (polls : List Poll)
    (hsame : ∀ p ∈ polls, p.millis2 = p.millis1) :
    (elapsedTimes s polls).sum % ULONG_MODULUS =
      ulongSub (runPolls s polls).last_update_time s.last_update_time := by
  induction polls generalizing s with
  | nil =>
    simp only [elapsedTimes, runPolls, List.sum_nil]
    unfold ulongSub ULONG_MODULUS
    omega
  | cons p ps ih =>
    have h1 := ih (poll s p) (fun q hq => hsame q (List.mem_cons_of_mem _ hq))
    have hlast : (poll s p).last_update_time = p.millis1 := by
      unfold poll
      rw [updateButtons_last_update_time]
      exact hsame p (List.mem_cons_self _ _)
    rw [hlast] at h1
    simp only [elapsedTimes, runPolls, List.sum_cons]
    exact ulongSub_telescope _ _ _ _ h1

/-! ## Scenarios -/

/-- C11: from the initial state, with 500 ms elapsed at every poll, if button 0
reads active at polls 1, 2, 3 and inactive at poll 4, then `readEvent(0)` after
the four polls is `PRESSED`, `NONE`, `LONG_PRESSED`, `LONG_RELEASED` and
`readButton(0)` is `DOWN`, `DOWN`, `LONG_DOWN`, `UP`. -/
theorem scenario_long_press (t0 : Nat) (p1 p2 p3 p4 : Poll)
    (e1 : duration_last_update (initial t0) p1.millis1 = 500)
    (e2 : duration_last_update (runPolls (initial t0) [p1]) p2.millis1 = 500)
    (e3 : duration_last_update (runPolls (initial t0) [p1, p2]) p3.millis1 = 500)
    (_e4 : duration_last_update (runPolls (initial t0) [p1, p2, p3]) p4.millis1 = 500)
    (a1 : p1.digitalRead (BTN_PINS 0) = 0)
    (a2 : p2.digitalRead (BTN_PINS 0) = 0)
    (a3 : p3.digitalRead (BTN_PINS 0) = 0)
    (a4 : p4.digitalRead (BTN_PINS 0) ≠ 0) :
    (readEvent (runPolls (initial t0) [p1]) 0).1 = PRESSED ∧
    (readEvent (runPolls (initial t0) [p1, p2]) 0).1 = NONE ∧
    (readEvent (runPolls (initial t0) [p1, p2, p3]) 0).1 = LONG_PRESSED ∧
    (readEvent (runPolls (initial t0) [p1, p2, p3, p4]) 0).1 = LONG_RELEASED ∧
    (readButton (runPolls (initial t0) [p1]) 0).1 = DOWN ∧
    (readButton (runPolls (initial t0) [p1, p2]) 0).1 = DOWN ∧
    (readButton (runPolls (initial t0) [p1, p2, p3]) 0).1 = LONG_DOWN ∧
    (readButton (runPolls (initial t0) [p1, p2, p3, p4]) 0).1 = UP := by
  simp only [runPolls] at e2 e3 ⊢
  have hs0 : (initial t0).current_states 0 = UP := rfl
  obtain ⟨d1, s1, v1⟩ := poll_active_nowrap (initial t0) p1 0 a1 0 500 rfl e1 (by decide)
  obtain ⟨d2, s2, v2⟩ := poll_active_nowrap _ p2 0 a2 500 500 d1 e2 (by decide)
  obtain ⟨d3, s3, v3⟩ := poll_active_nowrap _ p3 0 a3 1000 500 d2 e3 (by decide)
  obtain ⟨s4, _, v4⟩ := poll_inactive (poll (poll (poll (initial t0) p1) p2) p3) p4 0 a4
  simp only [LONG_PRESS_LIMIT, hs0] at s1 v1
  simp only [LONG_PRESS_LIMIT, s1] at s2 v2
  simp only [LONG_PRESS_LIMIT, s2] at s3 v3
  simp only [s3] at v4
  have hr : ∀ s : Poller, (readEvent s 0).1 = s.current_events 0 ∧
      (readButton s 0).1 = s.current_states 0 := fun s => ⟨rfl, rfl⟩
  simp only [hr]
  refine ⟨?_, ?_, ?_, ?_, ?_, ?_, ?_, ?_⟩
  · simpa using v1
  · simpa using v2
  · simpa using v3
  · simpa using v4
  · simpa using s1
  · simpa using s2
  · simpa using s3
  · exact s4

/-- C11, witness: initialisation at 0 ms and polls at 500, 1000, 1500 and
2000 ms, all pins reading 0 in the first three and 1 in the fourth. -/
theorem scenario_long_press_witness :
    (readEvent (runPolls (initial 0) [⟨500, 500, fun _ => 0⟩]) 0).1 = PRESSED ∧
    (readEvent (runPolls (initial 0)
      [⟨500, 500, fun _ => 0⟩, ⟨1000, 1000, fun _ => 0⟩]) 0).1 = NONE ∧
    (readEvent (runPolls (initial 0)
      [⟨500, 500, fun _ => 0⟩, ⟨1000, 1000, fun _ => 0⟩,
       ⟨1500, 1500, fun _ => 0⟩]) 0).1 = LONG_PRESSED ∧
    (readEvent (runPolls (initial 0)
      [⟨500, 500, fun _ => 0⟩, ⟨1000, 1000, fun _ => 0⟩,
       ⟨1500, 1500, fun _ => 0⟩, ⟨2000, 2000, fun _ => 1⟩]) 0).1 = LONG_RELEASED ∧
    (readButton (runPolls (initial 0) [⟨500, 500, fun _ => 0⟩]) 0).1 = DOWN ∧
    (readButton (runPolls (initial 0)
      [⟨500, 500, fun _ => 0⟩, ⟨1000, 1000, fun _ => 0⟩]) 0).1 = DOWN ∧
    (readButton (runPolls (initial 0)
      [⟨500, 500, fun _ => 0⟩, ⟨1000, 1000, fun _ => 0⟩,
       ⟨1500, 1500, fun _ => 0⟩]) 0).1 = LONG_DOWN ∧
    (readButton (runPolls (initial 0)
      [⟨500, 500, fun _ => 0⟩, ⟨1000, 1000, fun _ => 0⟩,
       ⟨1500, 1500, fun _ => 0⟩, ⟨2000, 2000, fun _ => 1⟩]) 0).1 = UP :=
  scenario_long_press 0 ⟨500, 500, fun _ => 0⟩ ⟨1000, 1000, fun _ => 0⟩
    ⟨1500, 1500, fun _ => 0⟩ ⟨2000, 2000, fun _ => 1⟩
    (by decide) (by decide) (by decide) (by decide) rfl rfl rfl (by decide)

/-- C12: for every button in state `UP` (in a state reached from the initial
state) and every elapsed time `e <= 1000` ms at the first poll, one poll with
an active read followed by one poll with an inactive read, whatever its
elapsed time, produces the events `PRESSED` then `RELEASED`, and `LONG_PRESSED`
is emitted on neither poll. -/
theorem short_tap (t0 : Nat) (polls : List Poll) (i : Fin NUM_BUTTONS) (p1 p2 : Poll)
    (hup : (runPolls (initial t0) polls).current_states i = UP)
    (hshort : duration_last_update (runPolls (initial t0) polls) p1.millis1
      ≤ LONG_PRESS_LIMIT)
    (hact : p1.digitalRead (BTN_PINS i) = 0)
    (hin : p2.digitalRead (BTN_PINS i) ≠ 0) :
    eventTrace i (runPolls (initial t0) polls) [p1, p2] = [PRESSED, RELEASED] ∧
    LONG_PRESSED ∉ eventTrace i (runPolls (initial t0) polls) [p1, p2] := by
  have hz := (reachable_consistent t0 polls i).2.2.1 hup
  have hlim : LONG_PRESS_LIMIT < ULONG_MODULUS := by decide
  obtain ⟨_, s1, v1⟩ := poll_active_nowrap (runPolls (initial t0) polls) p1 i hact 0
    (duration_last_update (runPolls (initial t0) polls) p1.millis1) hz rfl
    (by rw [Nat.zero_add]; exact Nat.lt_of_le_of_lt hshort hlim)
  have hn : ¬ 0 + duration_last_update (runPolls (initial t0) polls) p1.millis1
      > LONG_PRESS_LIMIT := by
    rw [Nat.zero_add]
    exact Nat.not_lt.mpr hshort
  simp only [hn, if_false, hup, if_true] at s1 v1
  obtain ⟨_, _, v2⟩ := poll_inactive (poll (runPolls (initial t0) polls) p1) p2 i hin
  simp only [s1, if_true] at v2
  simp [eventTrace, v1, v2]

/-- C12, witness: a tap of 1 ms on button 0 right after initialisation,
released 40 ms later. -/
theorem short_tap_witness :
    eventTrace 0 (runPolls (initial 0) []) [⟨1, 1, fun _ => 0⟩, ⟨41, 41, fun _ => 1⟩]
      = [PRESSED, RELEASED] ∧
    LONG_PRESSED ∉
      eventTrace 0 (runPolls (initial 0) []) [⟨1, 1, fun _ => 0⟩, ⟨41, 41, fun _ => 1⟩] :=
  short_tap 0 [] 0 ⟨1, 1, fun _ => 0⟩ ⟨41, 41, fun _ => 1⟩ rfl (by decide) rfl
    (by decide)

/-- C13: for every button whose state is `UP` (in a state reached from the
initial state) and every elapsed time `e > 1000` ms, a poll with an active read
yields state `LONG_DOWN` with event `NONE`: neither `PRESSED` nor
`LONG_PRESSED` is emitted for that poll. -/
theorem long_first_read_is_silent (t0 : Nat) (polls : List Poll) (i : Fin NUM_BUTTONS)
    (p : Poll)
    (hup : (runPolls (initial t0) polls).current_states i = UP)
    (hlong : duration_last_update (runPolls (initial t0) polls) p.millis1
      > LONG_PRESS_LIMIT)
    (hact : p.digitalRead (BTN_PINS i) = 0) :
    (poll (runPolls (initial t0) polls) p).current_states i = LONG_DOWN ∧
    (poll (runPolls (initial t0) polls) p).current_events i = NONE ∧
    (poll (runPolls (initial t0) polls) p).current_events i ≠ PRESSED ∧
    (poll (runPolls (initial t0) polls) p).current_events i ≠ LONG_PRESSED := by
  have hz := (reachable_consistent t0 polls i).2.2.1 hup
  obtain ⟨_, s1, v1⟩ := poll_active_nowrap (runPolls (initial t0) polls) p i hact 0
    (duration_last_update (runPolls (initial t0) polls) p.millis1) hz rfl
    (by rw [Nat.zero_add]; exact duration_last_update_lt _ _)
  have hg : 0 + duration_last_update (runPolls (initial t0) polls) p.millis1
      > LONG_PRESS_LIMIT := by
    rw [Nat.zero_add]
    exact hlong
  simp only [hg, if_true, hup] at s1 v1
  simp at v1
  refine ⟨s1, v1, ?_, ?_⟩ <;> rw [v1] <;> decide

/-- C13, witness: button 1 was tapped and released; the next poll comes
1001 ms later and finds it pressed. -/
theorem long_first_read_is_silent_witness :
    (runPolls (initial 0) [⟨10, 10, fun _ => 0⟩, ⟨20, 20, fun _ => 1⟩]).current_states 1
      = UP ∧
    (poll (runPolls (initial 0) [⟨10, 10, fun _ => 0⟩, ⟨20, 20, fun _ => 1⟩])
      ⟨1021, 1021, fun _ => 0⟩).current_states 1 = LONG_DOWN ∧
    (poll (runPolls (initial 0) [⟨10, 10, fun _ => 0⟩, ⟨20, 20, fun _ => 1⟩])
      ⟨1021, 1021, fun _ => 0⟩).current_events 1 = NONE :=
  ⟨by decide,
   (long_first_read_is_silent 0 [⟨10, 10, fun _ => 0⟩, ⟨20, 20, fun _ => 1⟩] 1
      ⟨1021, 1021, fun _ => 0⟩ (by decide) (by decide) rfl).1,
   (long_first_read_is_silent 0 [⟨10, 10, fun _ => 0⟩, ⟨20, 20, fun _ => 1⟩] 1
      ⟨1021, 1021, fun _ => 0⟩ (by decide) (by decide) rfl).2.1⟩

/-! ## One long press event per hold -/

/-- C14, counterexample: `LONG_PRESSED` is not emitted exactly once in every
hold that exceeds 1000 ms. (a) From the initial state button 0 reads active at
1001 ms and at 1500 ms: the accumulated duration exceeds 1000 at the first
poll, and no poll emits `LONG_PRESSED`. (b) Button 0 reads active at 500 ms and
1001 ms, then at clock values 1000 and 1001 after the counter has wrapped: the
elapsed times are 500, 501, 4294967295 and 1, and `LONG_PRESSED` is emitted
twice. -/
theorem long_pressed_once_counterexample :
    (initial 0).current_states 0 = UP ∧
    elapsedTimes (initial 0) [⟨1001, 1001, fun _ => 0⟩, ⟨1500, 1500, fun _ => 0⟩]
      = [1001, 499] ∧
    eventTrace 0 (initial 0) [⟨1001, 1001, fun _ => 0⟩, ⟨1500, 1500, fun _ => 0⟩]
      = [NONE, NONE] ∧
    (eventTrace 0 (initial 0)
      [⟨1001, 1001, fun _ => 0⟩, ⟨1500, 1500, fun _ => 0⟩]).count LONG_PRESSED = 0 ∧
    elapsedTimes (initial 0)
      [⟨500, 500, fun _ => 0⟩, ⟨1001, 1001, fun _ => 0⟩,
       ⟨1000, 1000, fun _ => 0⟩, ⟨1001, 1001, fun _ => 0⟩]
      = [500, 501, 4294967295, 1] ∧
    eventTrace 0 (initial 0)
      [⟨500, 500, fun _ => 0⟩, ⟨1001, 1001, fun _ => 0⟩,
       ⟨1000, 1000, fun _ => 0⟩, ⟨1001, 1001, fun _ => 0⟩]
      = [PRESSED, LONG_PRESSED, NONE, LONG_PRESSED] ∧
    (eventTrace 0 (initial 0)
      [⟨500, 500, fun _ => 0⟩, ⟨1001, 1001, fun _ => 0⟩,
       ⟨1000, 1000, fun _ => 0⟩, ⟨1001, 1001, fun _ => 0⟩]).count LONG_PRESSED = 2 := by
  decide

/-- C14, amended: for every button in state `UP` (in a state reached from the
initial state) and every sequence `hold` of consecutive polls with active reads
whose elapsed times add up to less than 2^32: `LONG_PRESSED` is emitted on
exactly one poll when the elapsed time of the first poll is at most 1000 ms
and the accumulated duration exceeds 1000 ms, and on no poll otherwise; the
poll that emits it is the first poll at which the accumulated duration exceeds
1000 ms, that is, the poll `p` after a non-empty prefix `ps` whose elapsed
times add up to at most 1000 while those of `ps ++ [p]` add up to more. -/
theorem long_pressed_once_per_hold (t0 : Nat) (polls : List Poll) (i : Fin NUM_BUTTONS)
    (hold : List Poll)
    (hup : (runPolls (initial t0) polls).current_states i = UP)
    (hact : ∀ q ∈ hold, q.digitalRead (BTN_PINS i) = 0)
    (hsum : (elapsedTimes (runPolls (initial t0) polls) hold).sum < ULONG_MODULUS) :
    (eventTrace i (runPolls (initial t0) polls) hold).count LONG_PRESSED =
      (if (elapsedTimes (runPolls (initial t0) polls) hold).headD 0 ≤ LONG_PRESS_LIMIT ∧
          (elapsedTimes (runPolls (initial t0) polls) hold).sum > LONG_PRESS_LIMIT
       then 1 else 0) ∧
    (∀ (ps : List Poll) (p : Poll) (qs : List Poll), hold = ps ++ p :: qs →
      ((poll (runPolls (runPolls (initial t0) polls) ps) p).current_events i
          = LONG_PRESSED ↔
        (ps ≠ [] ∧
         (elapsedTimes (runPolls (initial t0) polls) ps).sum ≤ LONG_PRESS_LIMIT ∧
         (elapsedTimes (runPolls (initial t0) polls) (ps ++ [p])).sum
            > LONG_PRESS_LIMIT))) := by
  have hz := (reachable_consistent t0 polls i).2.2.1 hup
  refine ⟨hold_count _ i hup hz hold hact hsum, fun ps p qs hsplit => ?_⟩
  have hsplit2 : hold = (ps ++ [p]) ++ qs := by simp [hsplit]
  have hact2 : ∀ q ∈ ps ++ [p], q.digitalRead (BTN_PINS i) = 0 := by
    intro q hq
    apply hact q
    rw [hsplit2]
    exact List.mem_append_left _ hq
  have hsum2 : (elapsedTimes (runPolls (initial t0) polls) (ps ++ [p])).sum
      < ULONG_MODULUS := by
    rw [hsplit2, elapsedTimes_append, List.sum_append] at hsum
    exact Nat.lt_of_le_of_lt (Nat.le_add_right _ _) hsum
  exact hold_last_event _ i hup hz ps p hact2 hsum2

/-- C14, witness: button 0 held over polls at 500, 1000, 1500 and 2000 ms
after initialisation emits `LONG_PRESSED` once. -/
theorem long_pressed_once_per_hold_witness :
    (eventTrace 0 (runPolls (initial 0) [])
      [⟨500, 500, fun _ => 0⟩, ⟨1000, 1000, fun _ => 0⟩,
       ⟨1500, 1500, fun _ => 0⟩, ⟨2000, 2000, fun _ => 0⟩]).count LONG_PRESSED = 1 :=
  (long_pressed_once_per_hold 0 [] 0
    [⟨500, 500, fun _ => 0⟩, ⟨1000, 1000, fun _ => 0⟩,
     ⟨1500, 1500, fun _ => 0⟩, ⟨2000, 2000, fun _ => 0⟩]
    rfl (by decide) (by decide)).1.trans (by decide)

/-! ## Independence of the buttons -/

/-- C15: for every two poller states that agree on the state and the duration
of button `i`, and every two pin readings that agree on the pin of button `i`,
one call of `updateButtons` with the same elapsed time leaves button `i` with
the same state, event and duration in both runs, whatever the other buttons
are; and running the iterations of the loop in any other order of the four
indices gives the same final poller state. -/
theorem buttons_independent (i : Fin NUM_BUTTONS) (s t : Poller) (m1 m2 n1 n2 : Nat)
    (rd rd2 : Nat → Nat)
    (hs : s.current_states i = t.current_states i)
    (hd : s.button_press_duration i = t.button_press_duration i)
    (hpin : rd (BTN_PINS i) = rd2 (BTN_PINS i))
    (he : duration_last_update s m1 = duration_last_update t n1) :
    ((updateButtons s m1 m2 rd).current_states i =
        (updateButtons t n1 n2 rd2).current_states i ∧
     (updateButtons s m1 m2 rd).current_events i =
        (updateButtons t n1 n2 rd2).current_events i ∧
     (updateButtons s m1 m2 rd).button_press_duration i =
        (updateButtons t n1 n2 rd2).button_press_duration i) ∧
    (∀ order : List (Fin NUM_BUTTONS), order.Perm [0, 1, 2, 3] →
      updateButtonsInOrder order s m1 m2 rd = updateButtons s m1 m2 rd) := by
  constructor
  · by_cases h : rd (BTN_PINS i) = 0
    · obtain ⟨a1, a2, a3⟩ := (updateButtons_cells s m1 m2 rd i).2 h
      obtain ⟨b1, b2, b3⟩ := (updateButtons_cells t n1 n2 rd2 i).2 (hpin ▸ h)
      rw [a1, a2, a3, b1, b2, b3, hs, hd, he]
      exact ⟨rfl, rfl, rfl⟩
    · obtain ⟨a1, a2, a3⟩ := (updateButtons_cells s m1 m2 rd i).1 h
      obtain ⟨b1, b2, b3⟩ := (updateButtons_cells t n1 n2 rd2 i).1 (hpin ▸ h)
      rw [a1, a2, a3, b1, b2, b3, hs]
      exact ⟨rfl, rfl, rfl⟩
  · intro order hperm
    have hstd : updateButtons s m1 m2 rd = updateButtonsInOrder [0, 1, 2, 3] s m1 m2 rd :=
      rfl
    rw [hstd]
    unfold updateButtonsInOrder
    apply List.Perm.foldl_eq' hperm
    intro x _ y _ z
    by_cases hxy : x = y
    · rw [hxy]
    · exact loopBody_comm rd (duration_last_update s m1) y x (fun h => hxy h.symm) z

/-- C15, witness: button 2 in two different pollers with different readings of
the other pins, and the loop run in the order 3, 1, 0, 2. -/
theorem buttons_independent_witness :
    (updateButtons (initial 0) 700 700 (fun _ => 0)).current_events 2 =
      (updateButtons (updateButtons (initial 0) 100 100 (fun n => if n = 5 then 1 else 0))
        800 800 (fun n => if n = 5 then 0 else 1)).current_events 2 ∧
    updateButtonsInOrder [3, 1, 0, 2] (initial 0) 700 700 (fun _ => 0) =
      updateButtons (initial 0) 700 700 (fun _ => 0) :=
  ⟨(buttons_independent 2 (initial 0)
      (updateButtons (initial 0) 100 100 (fun n => if n = 5 then 1 else 0))
      700 700 800 800 (fun _ => 0) (fun n => if n = 5 then 0 else 1)
      (by decide) (by decide) (by decide) (by decide)).1.2.1,
   (buttons_independent 2 (initial 0)
      (updateButtons (initial 0) 100 100 (fun n => if n = 5 then 1 else 0))
      700 700 800 800 (fun _ => 0) (fun n => if n = 5 then 0 else 1)
      (by decide) (by decide) (by decide) (by decide)).2 [3, 1, 0, 2] (by decide)⟩

/-! ## Elapsed time and the stored time of the last poll -/

/-- C16, counterexample: (a) when the clock advances between the two `millis()`
calls of a poll (10 then 11), the elapsed time is measured against 10 but 11 is
stored, and after a second poll at 20 the elapsed times 10 and 9 add up to 19,
not to 20 - 0; (b) when the counter wraps (baseline 4294967295, poll at 0) the
elapsed time is 1 while the stored time minus the baseline is -4294967295. -/
theorem elapsed_sum_counterexample :
    duration_last_update (initial 0) 10 = 10 ∧
    (updateButtons (initial 0) 10 11 (fun _ => 0)).button_press_duration 0 = 10 ∧
    (updateButtons (initial 0) 10 11 (fun _ => 0)).last_update_time = 11 ∧
    (updateButtons (initial 0) 10 11 (fun _ => 0)).last_update_time ≠ 10 ∧
    elapsedTimes (initial 0) [⟨10, 11, fun _ => 0⟩, ⟨20, 20, fun _ => 0⟩] = [10, 9] ∧
    (runPolls (initial 0)
      [⟨10, 11, fun _ => 0⟩, ⟨20, 20, fun _ => 0⟩]).last_update_time = 20 ∧
    ((elapsedTimes (initial 0) [⟨10, 11, fun _ => 0⟩, ⟨20, 20, fun _ => 0⟩]).sum : Int) ≠
      ((runPolls (initial 0)
        [⟨10, 11, fun _ => 0⟩, ⟨20, 20, fun _ => 0⟩]).last_update_time : Int)
        - ((initial 0).last_update_time : Int) ∧
    elapsedTimes (initial 4294967295) [⟨0, 0, fun _ => 0⟩] = [1] ∧
    ((elapsedTimes (initial 4294967295) [⟨0, 0, fun _ => 0⟩]).sum : Int) ≠
      ((runPolls (initial 4294967295) [⟨0, 0, fun _ => 0⟩]).last_update_time : Int)
        - ((initial 4294967295).last_update_time : Int) := by
  decide

/-- C16, amended: the elapsed value of a poll, which is added to every active
button, is the value `now` of the first `millis()` call minus the stored
`last_update_time`, in unsigned long arithmetic (modulo 2^32); when the second
`millis()` call returns the same `now`, the new `last_update_time` is that
`now`, and over any sequence of such polls the elapsed values add up, modulo
2^32, to the final stored `last_update_time` minus the initial baseline, and to
exactly that difference when the sum is below 2^32 and the final stored time is
an unsigned long not below the baseline. -/
theorem elapsed_and_last_update_time (s : Poller) (m1 m2 : Nat) (rd : Nat → Nat)
    (i : Fin NUM_BUTTONS) :
    duration_last_update s m1 = ulongSub m1 s.last_update_time ∧
    (rd (BTN_PINS i) = 0 →
      (updateButtons s m1 m2 rd).button_press_duration i =
        ulongAdd (s.button_press_duration i) (ulongSub m1 s.last_update_time)) ∧
    (m2 = m1 → (updateButtons s m1 m2 rd).last_update_time = m1) ∧
    (∀ polls : List Poll, (∀ p ∈ polls, p.millis2 = p.millis1) →
      (elapsedTimes s polls).sum % ULONG_MODULUS =
        ulongSub (runPolls s polls).last_update_time s.last_update_time ∧
      ((elapsedTimes s polls).sum < ULONG_MODULUS →
        s.last_update_time ≤ (runPolls s polls).last_update_time →
        (runPolls s polls).last_update_time < ULONG_MODULUS →
        (elapsedTimes s polls).sum =
          (runPolls s polls).last_update_time - s.last_update_time)) := by
  refine ⟨rfl, fun h => ((updateButtons_cells s m1 m2 rd i).2 h).1, fun h => ?_,
    fun polls hsame => ?_⟩
  · rw [updateButtons_last_update_time, h]
  · have hmod := elapsedTimes_sum_mod s polls hsame
    refine ⟨hmod, fun hlt hle hfin => ?_⟩
    unfold ulongSub ULONG_MODULUS at *
    omega

/-- C16, witness: three polls at 400, 900 and 1300 ms after initialisation at
100 ms. -/
theorem elapsed_and_last_update_time_witness :
    (elapsedTimes (initial 100)
      [⟨400, 400, fun _ => 0⟩, ⟨900, 900, fun _ => 1⟩, ⟨1300, 1300, fun _ => 0⟩]).sum =
      (runPolls (initial 100)
        [⟨400, 400, fun _ => 0⟩, ⟨900, 900, fun _ => 1⟩,
         ⟨1300, 1300, fun _ => 0⟩]).last_update_time - (initial 100).last_update_time :=
  ((elapsed_and_last_update_time (initial 100) 400 400 (fun _ => 0) 0).2.2.2
    [⟨400, 400, fun _ => 0⟩, ⟨900, 900, fun _ => 1⟩, ⟨1300, 1300, fun _ => 0⟩]
    (by decide)).2 (by decide) (by decide) (by decide)

/-! ## Invariant of the reachable states -/

/-- C17: in every poller state reached from the initial state by any sequence
of `updateButtons` calls, every button satisfies: the state is not
`INVALID_STATE` and the event is not `INVALID_EVENT`; state `UP` implies
duration 0; state `DOWN` implies duration at most 1000; the state is
`LONG_DOWN` iff the duration exceeds 1000. -/
theorem reachable_invariant (t0 : Nat) (polls : List Poll) (i : Fin NUM_BUTTONS) :
    (runPolls (initial t0) polls).current_states i ≠ INVALID_STATE ∧
    (runPolls (initial t0) polls).current_events i ≠ INVALID_EVENT ∧
    ((runPolls (initial t0) polls).current_states i = UP →
      (runPolls (initial t0) polls).button_press_duration i = 0) ∧
    ((runPolls (initial t0) polls).current_states i = DOWN →
      (runPolls (initial t0) polls).button_press_duration i ≤ 1000) ∧
    ((runPolls (initial t0) polls).current_states i = LONG_DOWN ↔
      (runPolls (initial t0) polls).button_press_duration i > 1000) :=
  reachable_consistent t0 polls i

/-- C17, witness: button 0 after polls at 600 and 1200 ms with the pin active
is `LONG_DOWN`, hence its duration exceeds 1000. -/
theorem reachable_invariant_witness :
    (runPolls (initial 0)
      [⟨600, 600, fun _ => 0⟩, ⟨1200, 1200, fun _ => 0⟩]).button_press_duration 0 > 1000 :=
  (reachable_invariant 0 [⟨600, 600, fun _ => 0⟩, ⟨1200, 1200, fun _ => 0⟩] 0).2.2.2.2.mp
    (by decide)

/-! ## The kind of release event -/

/-- C18: for every button in state `UP` (in a state reached from the initial
state) and every hold of `k >= 1` consecutive active polls whose elapsed times
add up to less than 2^32, followed by one inactive poll, the event after the
inactive poll is `LONG_RELEASED` if the elapsed times of the hold add up to
more than 1000 and `RELEASED` otherwise; it is never `NONE`. -/
theorem release_kind (t0 : Nat) (polls : List Poll) (i : Fin NUM_BUTTONS)
    (hold : List Poll) (p : Poll)
    (hup : (runPolls (initial t0) polls).current_states i = UP)
    (hne : hold ≠ [])
    (hact : ∀ q ∈ hold, q.digitalRead (BTN_PINS i) = 0)
    (hsum : (elapsedTimes (runPolls (initial t0) polls) hold).sum < ULONG_MODULUS)
    (hin : p.digitalRead (BTN_PINS i) ≠ 0) :
    (poll (runPolls (runPolls (initial t0) polls) hold) p).current_events i =
      (if (elapsedTimes (runPolls (initial t0) polls) hold).sum > 1000
       then LONG_RELEASED else RELEASED) ∧
    (poll (runPolls (runPolls (initial t0) polls) hold) p).current_events i ≠ NONE := by
  have hz := (reachable_consistent t0 polls i).2.2.1 hup
  obtain ⟨_, hst⟩ := hold_cells (runPolls (initial t0) polls) i hz hold hact hsum
  obtain ⟨_, _, v⟩ := poll_inactive (runPolls (runPolls (initial t0) polls) hold) p i hin
  rw [v, hst hne]
  unfold LONG_PRESS_LIMIT
  by_cases hg : (elapsedTimes (runPolls (initial t0) polls) hold).sum > 1000 <;> simp [hg]

/-- C18, witness: button 0 held over polls at 400 and 1000 ms after
initialisation and released at 1100 ms gives `RELEASED`; held until 1001 ms it
gives `LONG_RELEASED`. -/
theorem release_kind_witness :
    (poll (runPolls (runPolls (initial 0) [])
        [⟨400, 400, fun _ => 0⟩, ⟨1000, 1000, fun _ => 0⟩])
      ⟨1100, 1100, fun _ => 1⟩).current_events 0 = RELEASED ∧
    (poll (runPolls (runPolls (initial 0) [])
        [⟨400, 400, fun _ => 0⟩, ⟨1001, 1001, fun _ => 0⟩])
      ⟨1100, 1100, fun _ => 1⟩).current_events 0 = LONG_RELEASED :=
  ⟨(release_kind 0 [] 0 [⟨400, 400, fun _ => 0⟩, ⟨1000, 1000, fun _ => 0⟩]
      ⟨1100, 1100, fun _ => 1⟩ rfl (List.cons_ne_nil _ _) (by decide) (by decide)
      (by decide)).1.trans (by decide),
   (release_kind 0 [] 0 [⟨400, 400, fun _ => 0⟩, ⟨1001, 1001, fun _ => 0⟩]
      ⟨1100, 1100, fun _ => 1⟩ rfl (List.cons_ne_nil _ _) (by decide) (by decide)
      (by decide)).1.trans (by decide)⟩

/-! ## Wrap-around of the millisecond counter -/

/-- C19: for every stored `last_update_time` `t0` and every true elapsed time
`d < 2^32`, when the clock reads `(t0 + d) mod 2^32` the unsigned subtraction
`millis() - last_update_time` computed in `updateButtons` equals `d`, also when
`t0 + d >= 2^32`. -/
theorem elapsed_survives_wrap (s : Poller) (d : Nat) (hd : d < ULONG_MODULUS) :
    duration_last_update s ((s.last_update_time + d) % ULONG_MODULUS) = d ∧
    ulongSub ((s.last_update_time + d) % 4294967296) s.last_update_time = d := by
  unfold duration_last_update ulongSub ULONG_MODULUS at *
  omega

/-- C19, witness: the stored time is 4294967000 and 1000 ms pass, so the clock
reads 704 after wrap-around. -/
theorem elapsed_survives_wrap_witness :
    (4294967000 + 1000) % ULONG_MODULUS = 704 ∧
    4294967000 + 1000 ≥ ULONG_MODULUS ∧
    duration_last_update (initial 4294967000) ((4294967000 + 1000) % ULONG_MODULUS)
      = 1000 :=
  ⟨by decide, by decide,
    (elapsed_survives_wrap (initial 4294967000) 1000 (by decide)).1⟩

end buttons
